import Mathlib

/-!
Verification development for the FocusPal presence tracker (`src/app.py`).

The Python application turns a boolean "person present" detector signal
into a log of presence sessions.  This file gives a shallow embedding of
the tracker's state machine:

* `TrackerState` mirrors the mutable fields of `PresenceTrackerApp`
  (`running`, `paused`, `session_active`, `session_start_time`,
  `absence_start_time`, `last_detection_run_time`, `detection_interval`,
  `_pause_start_time`, `total_time_today`) plus an explicit model of the
  SQLite `presence` table (`db`, guarded by a connection flag `conn`) and
  of the status label (`status`, with `statusLog` recording every
  `status_label.config` call of a run in order).

* Timestamps are rationals (`ℚ`), standing for `time.time()` seconds.
  Calendar-day bucketing of timestamps (`datetime.date` /
  `DATE(start_time)` in the source) is modelled as floor division of the
  timestamp by 86400, a fixed-timezone abstraction of "the date of this
  Unix timestamp".

* Each Python method becomes a pure state transformer taking the current
  clock reading `now`.  GUI-only plumbing (button states, the video image,
  `root.after` rescheduling) is not part of the state; every
  `status_label.config(text=...)` call is kept, because detector-error
  reporting is specified through it.

* `update_frame` is embedded up to its externally-supplied inputs: whether
  the camera delivered a frame (`frameOk`) and the detector outcome
  (`signal : Option Bool`, `none` meaning the YOLO call raised an
  exception).
-/

namespace FocusPal

/-- One row of the `presence` table: `INSERT INTO presence
(start_time, end_time, duration)` in `save_session`. -/
structure SessionRecord where
  start_time : ℚ
  end_time : ℚ
  duration : ℚ
deriving DecidableEq, Repr

/-- The mutable state of `PresenceTrackerApp`, together with the modelled
database table and status label. -/
structure TrackerState where
  running : Bool
  paused : Bool
  session_active : Bool
  session_start_time : Option ℚ
  current_session_duration : ℚ
  last_detection_run_time : ℚ
  detection_interval : ℚ
  absence_start_time : Option ℚ
  /-- `self._pause_start_time` in the source. -/
  pause_start_time : Option ℚ
  total_time_today : ℚ
  /-- Whether the SQLite connection is open (`self.conn`/`self.cursor`). -/
  conn : Bool
  /-- The rows of the `presence` table, in insertion order. -/
  db : List SessionRecord
  /-- Current text of `status_label`. -/
  status : String
  /-- Every `status_label.config(text=...)` call, in order. -/
  statusLog : List String
deriving DecidableEq, Repr

/-- `self.absence_threshold = 3.0` seconds. -/
def absence_threshold : ℚ := 3

/-- Model of `status_label.config(text=t)`: record the new text. -/
def setStatus (t : String) (s : TrackerState) : TrackerState :=
  { s with status := t, statusLog := s.statusLog ++ [t] }

/-- Calendar day of a Unix timestamp, modelling
`datetime.date.fromtimestamp` / SQLite `DATE(start_time)` for a fixed
timezone: floor division of seconds by 86400. -/
def dayOf (t : ℚ) : ℤ := ⌊t / 86400⌋

/-- `SELECT SUM(duration) FROM presence WHERE DATE(start_time) = day`,
with `0` when there are no matching rows. -/
def sumForDay (day : ℤ) (db : List SessionRecord) : ℚ :=
  ((db.filter fun r => dayOf r.start_time = day).map SessionRecord.duration).sum

/-- `get_total_time_for_today`: sum of today's durations, or `0` when the
database is not connected (`if self.cursor:` guard). -/
def get_total_time_for_today (now : ℚ) (s : TrackerState) : TrackerState × ℚ :=
  (s, if s.conn then sumForDay (dayOf now) s.db else 0)

/-- `save_session(start_time, end_time, duration)`: insert a row and
refresh `total_time_today` from the table; a no-op (beyond a print) when
the database is not connected.  `now` is the wall clock at the call, used
for `date.today()` inside the refresh. -/
def save_session (now start_t end_t dur : ℚ) (s : TrackerState) : TrackerState :=
  if s.conn then
    let db' := s.db ++ [⟨start_t, end_t, dur⟩]
    { s with db := db', total_time_today := sumForDay (dayOf now) db' }
  else s

/-- `start_tracker` (the success path: model/camera/database setup is
external and assumed to succeed; `connect_db` reopens the connection).
Resets session and detection state for a fresh start, re-reads today's
total, and enters the Running phase. -/
def start_tracker (now : ℚ) (s : TrackerState) : TrackerState :=
  if s.running = false ∧ s.paused = false then
    let s1 : TrackerState :=
      { s with running := true, paused := false, pause_start_time := none,
               conn := true,
               session_active := false, session_start_time := none,
               current_session_duration := 0,
               absence_start_time := none,
               last_detection_run_time := now,
               detection_interval := 1 }
    { s1 with total_time_today := (get_total_time_for_today now s1).2 }
  else s

/-- `pause_resume_tracker`: a single toggle handler.  Not running: return
immediately.  Running and not paused: record `pause_start_time := now` and
enter the Paused phase.  Paused: compute the pause duration and shift
`session_start_time` (when a session is active), `absence_start_time`
(when set) and `last_detection_run_time` forward by it, then return to the
Running phase. -/
def pause_resume_tracker (now : ℚ) (s : TrackerState) : TrackerState :=
  if s.running = false then s
  else if s.paused = false then
    setStatus "Status: Paused" { s with paused := true, pause_start_time := some now }
  else
    let shift : ℚ := match s.pause_start_time with
      | some a => now - a
      | none => 0
    { s with
      session_start_time :=
        if s.session_active then s.session_start_time.map (· + shift)
        else s.session_start_time,
      absence_start_time := s.absence_start_time.map (· + shift),
      last_detection_run_time := s.last_detection_run_time + shift,
      paused := false, pause_start_time := none }

/-- `stop_tracker`: when running or paused, leave both phases, close the
active session at `end_time = now` (saving it when its duration exceeds
0.1 s), close the database, and finally refresh `total_time_today` — the
source performs that last refresh after `close_db`, so the query returns
`0`. -/
def stop_tracker (now : ℚ) (s : TrackerState) : TrackerState :=
  if s.running = true ∨ s.paused = true then
    let s1 : TrackerState := { s with running := false, paused := false, pause_start_time := none }
    let s2 : TrackerState :=
      if s1.session_active then
        let start_t := s1.session_start_time.getD 0
        let dur := now - start_t
        let saved := if dur > 1/10 then save_session now start_t now dur s1 else s1
        { saved with session_active := false, session_start_time := none,
                     current_session_duration := 0 }
      else s1
    let s3 : TrackerState := { s2 with conn := false }
    let s4 := setStatus "Status: Stopped" s3
    { s4 with total_time_today := (get_total_time_for_today now s4).2 }
  else s

/-- The detection-run body of `update_frame` (lines 369–442): given the
detector outcome for this run (`none` = the YOLO call raised), update the
status label, the session/absence state and the polling interval.  An
error sets the status to "Detection Error" and then behaves as
`person_detected_in_this_run = False`. -/
def run_detection (signal : Option Bool) (now : ℚ) (s : TrackerState) : TrackerState :=
  let s0 := match signal with
    | some _ => s
    | none => setStatus "Status: Detection Error" s
  let detected := signal.getD false
  if detected then
    let s1 := setStatus "Status: Detected ✅" s0
    let s2 : TrackerState := { s1 with absence_start_time := none, detection_interval := 1 }
    if s2.session_active = false then
      { s2 with session_start_time := some now, session_active := true }
    else s2
  else
    let s1 := setStatus "Status: Not Detected ❌" s0
    if s1.session_active then
      let abs_start := s1.absence_start_time.getD now
      let s2 : TrackerState := { s1 with absence_start_time := some abs_start }
      if now - abs_start ≥ absence_threshold then
        let session_end := abs_start
        let start_t := s2.session_start_time.getD 0
        let dur := session_end - start_t
        let s3 := if dur > 1/10 then save_session now start_t session_end dur s2 else s2
        { s3 with session_active := false, session_start_time := none,
                  current_session_duration := 0,
                  absence_start_time := none,
                  detection_interval := 10 }
      else s2
    else { s1 with detection_interval := 10 }

/-- The running daily total shown by `update_frame` (lines 454–462):
persisted total plus the elapsed time of the in-progress session. -/
def display_total (now : ℚ) (s : TrackerState) : ℚ :=
  s.total_time_today +
    (if s.session_active then now - s.session_start_time.getD 0 else 0)

/-- `update_frame`: no-op when stopped or paused (the paused branch only
reschedules itself).  Otherwise, on a camera read failure stop the tracker
and report a camera read error; on a frame, run a detection when
`now - last_detection_run_time ≥ detection_interval` (recording
`last_detection_run_time := now` first) and then refresh
`current_session_duration` for the display. -/
def update_frame (frameOk : Bool) (signal : Option Bool) (now : ℚ)
    (s : TrackerState) : TrackerState :=
  if s.running = false then s
  else if s.paused = true then s
  else if frameOk = false then
    setStatus "Status: Camera Read Error" (stop_tracker now s)
  else
    let s1 :=
      if now - s.last_detection_run_time ≥ s.detection_interval then
        run_detection signal now { s with last_detection_run_time := now }
      else s
    if s1.session_active then
      { s1 with current_session_duration := now - s1.session_start_time.getD 0 }
    else s1

/-- `PresenceTrackerApp.__init__`: initial state at launch time `now` with
an existing database content `db0` (`connect_db` succeeds; the total for
today is loaded from the table). -/
def init_state (now : ℚ) (db0 : List SessionRecord) : TrackerState :=
  { running := false, paused := false,
    session_active := false, session_start_time := none,
    current_session_duration := 0,
    last_detection_run_time := now,
    detection_interval := 1,
    absence_start_time := none,
    pause_start_time := none,
    total_time_today := sumForDay (dayOf now) db0,
    conn := true,
    db := db0,
    status := "Status: Stopped",
    statusLog := [] }

/-- One externally-triggered event: a button press or one tick of the
frame loop with its camera/detector outcome. -/
inductive Op where
  | start (now : ℚ)
  | pauseResume (now : ℚ)
  | stop (now : ℚ)
  | frame (frameOk : Bool) (signal : Option Bool) (now : ℚ)
deriving Repr

/-- Apply one event to the state. -/
def applyOp (o : Op) (s : TrackerState) : TrackerState :=
  match o with
  | Op.start now => start_tracker now s
  | Op.pauseResume now => pause_resume_tracker now s
  | Op.stop now => stop_tracker now s
  | Op.frame frameOk signal now => update_frame frameOk signal now s

/-- Run a list of events from a state. -/
def runOps (s : TrackerState) (ops : List Op) : TrackerState :=
  ops.foldl (fun t o => applyOp o t) s

/-- A well-formed persisted session: duration above the 0.1 s noise
threshold and equal to the derived value `end_time - start_time`. -/
def goodRecord (r : SessionRecord) : Prop :=
  r.duration > 1/10 ∧ r.duration = r.end_time - r.start_time

/-- The spec's `absence_start` invariant, restricted to the phases in
which the tracker is live: whenever the tracker is Running or Paused, a
set `absence_start_time` implies an active session. -/
def absenceInvariant (s : TrackerState) : Prop :=
  s.running = true ∨ s.paused = true →
    (s.absence_start_time = none ∨ s.session_active = true)

/-- Adaptive-polling invariant: an active session always polls at the
fast interval `1.0`. -/
def fastWhenActive (s : TrackerState) : Prop :=
  s.session_active = true → s.detection_interval = 1

end FocusPal

namespace FocusPal

/-! ### Helper lemmas -/

/-- A predicate preserved by every event holds after any event sequence. -/
theorem runOps_preserves (P : TrackerState → Prop)
    (hstep : ∀ o s, P s → P (applyOp o s)) :
    ∀ (ops : List Op) (s : TrackerState), P s → P (runOps s ops) := by
  intro ops
  induction ops with
  | nil => intro s h; exact h
  | cons o rest ih =>
      intro s h
      exact ih (applyOp o s) (hstep o s h)

theorem sumForDay_append (day : ℤ) (db : List SessionRecord) (r : SessionRecord) :
    sumForDay day (db ++ [r]) =
      sumForDay day db + (if dayOf r.start_time = day then r.duration else 0) := by
  simp only [sumForDay, List.filter_append, List.map_append, List.sum_append]
  by_cases h : dayOf r.start_time = day <;> simp [h]

end FocusPal

namespace FocusPal

/-! ### Projection helper lemmas -/

theorem save_session_frame_fields (now st en du : ℚ) (s : TrackerState) :
    (save_session now st en du s).running = s.running ∧
    (save_session now st en du s).paused = s.paused ∧
    (save_session now st en du s).session_active = s.session_active ∧
    (save_session now st en du s).session_start_time = s.session_start_time ∧
    (save_session now st en du s).last_detection_run_time = s.last_detection_run_time ∧
    (save_session now st en du s).detection_interval = s.detection_interval ∧
    (save_session now st en du s).absence_start_time = s.absence_start_time ∧
    (save_session now st en du s).pause_start_time = s.pause_start_time ∧
    (save_session now st en du s).conn = s.conn := by
  unfold save_session
  split_ifs <;> simp

theorem run_detection_frame_fields (sig : Option Bool) (now : ℚ) (s : TrackerState) :
    (run_detection sig now s).running = s.running ∧
    (run_detection sig now s).paused = s.paused ∧
    (run_detection sig now s).last_detection_run_time = s.last_detection_run_time ∧
    (run_detection sig now s).pause_start_time = s.pause_start_time ∧
    (run_detection sig now s).conn = s.conn := by
  unfold run_detection setStatus
  rcases sig with _ | b <;>
    simp only [Option.getD_some, Option.getD_none] <;>
    split_ifs <;>
    simp [save_session_frame_fields]

/-- When the tracker is running, unpaused, a frame arrives and the polling
interval has elapsed, `update_frame` performs a detection run, stamping
`last_detection_run_time := now` first. -/
theorem update_frame_runs (sig : Option Bool) (t : ℚ) (s : TrackerState)
    (hr : s.running = true) (hp : s.paused = false)
    (hgate : t - s.last_detection_run_time ≥ s.detection_interval) :
    (update_frame true sig t s).last_detection_run_time = t := by
  have h := (run_detection_frame_fields sig t
    { s with last_detection_run_time := t }).2.2.1
  simp only [update_frame, hr, hp]
  simp only [Bool.true_eq_false, if_false, if_neg, reduceIte]
  rw [if_pos hgate]
  split_ifs <;> simp_all

end FocusPal

namespace FocusPal

/-- C10: a successful `start_tracker` resets the session state
(`session_active = false`, `session_start_time = none`,
`absence_start_time = none`, `last_detection_run_time = now`) and sets
`detection_interval` to the fast value `1.0` even though no session is
active yet — as does `__init__` — so, given a frame each tick, no
detection runs strictly before `now + 1`, while a tick at `now + 1`
does run one. -/
theorem C10_start_resets (s : TrackerState) (now : ℚ)
    (hr : s.running = false) (hp : s.paused = false) :
    (start_tracker now s).running = true ∧
    (start_tracker now s).paused = false ∧
    (start_tracker now s).session_active = false ∧
    (start_tracker now s).session_start_time = none ∧
    (start_tracker now s).absence_start_time = none ∧
    (start_tracker now s).last_detection_run_time = now ∧
    (start_tracker now s).detection_interval = 1 ∧
    (∀ db0 : List SessionRecord, (init_state now db0).detection_interval = 1) ∧
    (∀ (sig : Option Bool) (t : ℚ), t - now < 1 →
      update_frame true sig t (start_tracker now s) = start_tracker now s) ∧
    (∀ sig : Option Bool,
      (update_frame true sig (now + 1) (start_tracker now s)).last_detection_run_time
        = now + 1) := by
  have hstart : start_tracker now s =
      { s with running := true, paused := false, pause_start_time := none,
               conn := true,
               session_active := false, session_start_time := none,
               current_session_duration := 0,
               absence_start_time := none,
               last_detection_run_time := now,
               detection_interval := 1,
               total_time_today := sumForDay (dayOf now) s.db } := by
    simp [start_tracker, hr, hp, get_total_time_for_today]
  refine ⟨by simp [hstart], by simp [hstart], by simp [hstart], by simp [hstart],
    by simp [hstart], by simp [hstart], by simp [hstart],
    fun db0 => by simp [init_state], ?_, ?_⟩
  · intro sig t ht
    have hlt : ¬ (t - now ≥ (1:ℚ)) := by linarith
    simp [update_frame, hstart, hlt]
  · intro sig
    refine update_frame_runs sig (now + 1) (start_tracker now s)
      (by simp [hstart]) (by simp [hstart]) ?_
    rw [hstart]
    norm_num

/-- C10 witness at a concrete input. -/
theorem C10_start_resets_witness :
    (start_tracker 7 (init_state 0 [])).session_active = false ∧
    (start_tracker 7 (init_state 0 [])).last_detection_run_time = 7 ∧
    (start_tracker 7 (init_state 0 [])).detection_interval = 1 := by
  have h := C10_start_resets (init_state 0 []) 7 (by simp [init_state]) (by simp [init_state])
  exact ⟨h.2.2.1, h.2.2.2.2.2.1, h.2.2.2.2.2.2.1⟩

/-- C3: debounce holds — a "present" detection run on an active session
cancels any pending absence (`absence_start_time := none`) and changes no
session boundary (same `session_start_time`, same persisted records); in
particular the spec's trace — present at t=0, absent at t=1, present at
t=2, threshold 3.0 s — leaves one continuous session started at 0 and
persists nothing. -/
theorem C3_debounce (s : TrackerState) (now : ℚ)
    (hact : s.session_active = true) :
    ((run_detection (some true) now s).session_active = true ∧
     (run_detection (some true) now s).absence_start_time = none ∧
     (run_detection (some true) now s).session_start_time = s.session_start_time ∧
     (run_detection (some true) now s).db = s.db) ∧
    ((runOps (init_state (-1) []) [Op.start (-1), Op.frame true (some true) 0,
        Op.frame true (some false) 1, Op.frame true (some true) 2]).session_active = true ∧
     (runOps (init_state (-1) []) [Op.start (-1), Op.frame true (some true) 0,
        Op.frame true (some false) 1, Op.frame true (some true) 2]).session_start_time = some 0 ∧
     (runOps (init_state (-1) []) [Op.start (-1), Op.frame true (some true) 0,
        Op.frame true (some false) 1, Op.frame true (some true) 2]).absence_start_time = none ∧
     (runOps (init_state (-1) []) [Op.start (-1), Op.frame true (some true) 0,
        Op.frame true (some false) 1, Op.frame true (some true) 2]).db = []) := by
  constructor
  · simp [run_detection, setStatus, hact]
  · norm_num [runOps, applyOp, init_state, start_tracker, update_frame,
      run_detection, setStatus, save_session, get_total_time_for_today,
      sumForDay, dayOf, absence_threshold, stop_tracker, pause_resume_tracker]

/-- C3 witness at a concrete input. -/
theorem C3_debounce_witness :
    (run_detection (some true) 5 (start_tracker 0 (init_state 0 []))).db = [] ∧
    (run_detection (some true) 5 (run_detection (some true) 1
       (start_tracker 0 (init_state 0 [])))).absence_start_time = none := by
  have h2 := C3_debounce (run_detection (some true) 1 (start_tracker 0 (init_state 0 []))) 5
    (by norm_num [run_detection, setStatus, start_tracker, init_state, get_total_time_for_today,
        sumForDay, dayOf])
  refine ⟨?_, h2.1.2.1⟩
  norm_num [run_detection, setStatus, start_tracker, init_state, get_total_time_for_today,
    sumForDay, dayOf]

end FocusPal

namespace FocusPal

/-- C5 counterexample: the pause control is a single toggle.  From a
reachable Paused state (session started at 1, paused at 2), invoking the
pause handler again at t=5 does not leave the state unchanged: the phase
flips back to Running and `session_start_time` is shifted from 1 to 4. -/
theorem C5_counterexample :
    (runOps (init_state 0 []) [Op.start 0, Op.frame true (some true) 1,
       Op.pauseResume 2]).paused = true ∧
    (runOps (init_state 0 []) [Op.start 0, Op.frame true (some true) 1,
       Op.pauseResume 2]).session_start_time = some 1 ∧
    (pause_resume_tracker 5 (runOps (init_state 0 []) [Op.start 0,
       Op.frame true (some true) 1, Op.pauseResume 2])).paused = false ∧
    (pause_resume_tracker 5 (runOps (init_state 0 []) [Op.start 0,
       Op.frame true (some true) 1, Op.pauseResume 2])).session_start_time = some 4 := by
  norm_num [runOps, applyOp, init_state, start_tracker, update_frame,
    run_detection, setStatus, save_session, get_total_time_for_today,
    sumForDay, dayOf, absence_threshold, stop_tracker, pause_resume_tracker]

/-- C5 amended: `stop_tracker` on a stopped tracker is a no-op, and the
pause/resume handler on a non-running tracker is a no-op; but the pause
control is a toggle, so invoking it while paused performs a resume
(phase returns to Running, `pause_start_time` is cleared) rather than
leaving the tracker Paused. -/
theorem C5_amended (s : TrackerState) (now : ℚ) :
    (s.running = false → s.paused = false → stop_tracker now s = s) ∧
    (s.running = false → pause_resume_tracker now s = s) ∧
    (s.running = true → s.paused = true →
      (pause_resume_tracker now s).paused = false ∧
      (pause_resume_tracker now s).running = true ∧
      (pause_resume_tracker now s).pause_start_time = none) := by
  refine ⟨fun hr hp => ?_, fun hr => ?_, fun hr hp => ?_⟩
  · simp [stop_tracker, hr, hp]
  · simp [pause_resume_tracker, hr]
  · simp [pause_resume_tracker, hr, hp]

/-- C5 amended witness at concrete inputs. -/
theorem C5_amended_witness :
    (stop_tracker 3 (init_state 0 []) = init_state 0 []) ∧
    (pause_resume_tracker 3 (init_state 0 []) = init_state 0 []) ∧
    (pause_resume_tracker 5 (pause_resume_tracker 2 (start_tracker 0
       (init_state 0 [])))).paused = false := by
  refine ⟨(C5_amended (init_state 0 []) 3).1 (by simp [init_state]) (by simp [init_state]),
    (C5_amended (init_state 0 []) 3).2.1 (by simp [init_state]),
    ((C5_amended (pause_resume_tracker 2 (start_tracker 0 (init_state 0 []))) 5).2.2
      ?_ ?_).1⟩
  · norm_num [pause_resume_tracker, start_tracker, init_state, setStatus,
      get_total_time_for_today, sumForDay, dayOf]
  · norm_num [pause_resume_tracker, start_tracker, init_state, setStatus,
      get_total_time_for_today, sumForDay, dayOf]

end FocusPal

namespace FocusPal

/-- C2: an "absent" detection run on an active session with a pending
absence started at `a` closes the session exactly when
`now - a ≥ absence_threshold`; the close is backdated — the persisted
record (when its duration `a - t0` exceeds 0.1 s) is
`⟨session_start, absence_start, absence_start - session_start⟩`, not one
ending at `now`; below the threshold the session stays active with
`absence_start_time` unchanged.  The spec's trace — present at t=0,
absent at t=1,2,3,4, threshold 3.0 s — persists exactly one session
`⟨0, 1, 1⟩`. -/
theorem C2_backdated_close (s : TrackerState) (a t0 now : ℚ)
    (hact : s.session_active = true) (habs : s.absence_start_time = some a)
    (hstart : s.session_start_time = some t0) (hconn : s.conn = true) :
    (now - a ≥ absence_threshold →
      (run_detection (some false) now s).session_active = false ∧
      (run_detection (some false) now s).session_start_time = none ∧
      (run_detection (some false) now s).absence_start_time = none ∧
      (run_detection (some false) now s).db =
        (if a - t0 > 1/10 then s.db ++ [⟨t0, a, a - t0⟩] else s.db)) ∧
    (now - a < absence_threshold →
      (run_detection (some false) now s).session_active = true ∧
      (run_detection (some false) now s).session_start_time = some t0 ∧
      (run_detection (some false) now s).absence_start_time = some a ∧
      (run_detection (some false) now s).db = s.db) ∧
    (runOps (init_state (-1) []) [Op.start (-1), Op.frame true (some true) 0,
       Op.frame true (some false) 1, Op.frame true (some false) 2,
       Op.frame true (some false) 3, Op.frame true (some false) 4]).db
      = [⟨0, 1, 1⟩] := by
  refine ⟨fun hthr => ?_, fun hthr => ?_, ?_⟩
  · have hnlt : ¬ (now - a < absence_threshold) := not_lt.mpr hthr
    simp only [run_detection, setStatus, hact, habs, hstart, save_session, hconn]
    split_ifs with h1 h2 <;> simp_all <;> linarith
  · have hnge : ¬ (now - a ≥ absence_threshold) := not_le.mpr hthr
    simp only [run_detection, setStatus, hact, habs, hstart]
    split_ifs <;> simp_all <;> linarith
  · norm_num [runOps, applyOp, init_state, start_tracker, update_frame,
      run_detection, setStatus, save_session, get_total_time_for_today,
      sumForDay, dayOf, absence_threshold, stop_tracker, pause_resume_tracker]

/-- C2 witness at a concrete input: an active session started at 0 with
absence pending since 1, checked at 4 (threshold reached) and at 2
(below threshold). -/
theorem C2_backdated_close_witness :
    ((run_detection (some false) 4 (run_detection (some false) 1
        (run_detection (some true) 0 (start_tracker (-1) (init_state (-1) []))))).db
      = [⟨0, 1, 1⟩]) ∧
    ((run_detection (some false) 2 (run_detection (some false) 1
        (run_detection (some true) 0 (start_tracker (-1) (init_state (-1) []))))).session_active
      = true) := by
  have base := C2_backdated_close
    (run_detection (some false) 1 (run_detection (some true) 0
      (start_tracker (-1) (init_state (-1) [])))) 1 0 4
    (by norm_num [run_detection, setStatus, start_tracker, init_state,
        get_total_time_for_today, sumForDay, dayOf, absence_threshold])
    (by norm_num [run_detection, setStatus, start_tracker, init_state,
        get_total_time_for_today, sumForDay, dayOf, absence_threshold])
    (by norm_num [run_detection, setStatus, start_tracker, init_state,
        get_total_time_for_today, sumForDay, dayOf, absence_threshold])
    (by norm_num [run_detection, setStatus, start_tracker, init_state,
        get_total_time_for_today, sumForDay, dayOf, absence_threshold])
  have base2 := C2_backdated_close
    (run_detection (some false) 1 (run_detection (some true) 0
      (start_tracker (-1) (init_state (-1) [])))) 1 0 2
    (by norm_num [run_detection, setStatus, start_tracker, init_state,
        get_total_time_for_today, sumForDay, dayOf, absence_threshold])
    (by norm_num [run_detection, setStatus, start_tracker, init_state,
        get_total_time_for_today, sumForDay, dayOf, absence_threshold])
    (by norm_num [run_detection, setStatus, start_tracker, init_state,
        get_total_time_for_today, sumForDay, dayOf, absence_threshold])
    (by norm_num [run_detection, setStatus, start_tracker, init_state,
        get_total_time_for_today, sumForDay, dayOf, absence_threshold])
  constructor
  · have h := (base.1 (by norm_num [absence_threshold])).2.2.2
    rw [h]
    norm_num [run_detection, setStatus, start_tracker, init_state,
      get_total_time_for_today, sumForDay, dayOf, absence_threshold, save_session]
  · exact (base2.2.1 (by norm_num [absence_threshold])).1

end FocusPal

namespace FocusPal

/-- C1 counterexample: pressing Stop while the tracker is still Paused
does not re-anchor the session.  Session started at t=1, paused at t=6,
stopped at t=106 while still paused: the persisted session is
`⟨1, 106, 105⟩` — the 100 s of paused wall-clock time are counted —
whereas the claim requires the paused time to be excluded (duration 5). -/
theorem C1_counterexample :
    (runOps (init_state 0 []) [Op.start 0, Op.frame true (some true) 1,
       Op.pauseResume 6, Op.stop 106]).db = [⟨1, 106, 105⟩] ∧
    ((105 : ℚ) ≠ 5) := by
  constructor
  · norm_num [runOps, applyOp, init_state, start_tracker, update_frame,
      run_detection, setStatus, save_session, get_total_time_for_today,
      sumForDay, dayOf, absence_threshold, stop_tracker, pause_resume_tracker]
  · norm_num

/-- C1 amended: a completed pause/resume cycle re-anchors the timers —
resuming at `r` a pause begun at `p` adds `r - p` to `session_start_time`
(session active), to `absence_start_time` (when set) and to
`last_detection_run_time` — and a session then closed by `stop_tracker`
at `T` persists duration `(T - t0) - (r - p)`: wall-clock time minus the
completed paused interval.  However, `stop_tracker` while still Paused
performs no such re-anchoring (see the counterexample): only completed
pause/resume cycles are excluded from the duration. -/
theorem C1_amended (s : TrackerState) (t0 p r T : ℚ)
    (hrun : s.running = true) (hp : s.paused = false)
    (hact : s.session_active = true) (hstart : s.session_start_time = some t0)
    (hconn : s.conn = true)
    (hdur : T - (t0 + (r - p)) > 1/10) :
    (pause_resume_tracker p s).paused = true ∧
    (pause_resume_tracker p s).pause_start_time = some p ∧
    (pause_resume_tracker r (pause_resume_tracker p s)).paused = false ∧
    (pause_resume_tracker r (pause_resume_tracker p s)).session_start_time
      = some (t0 + (r - p)) ∧
    (pause_resume_tracker r (pause_resume_tracker p s)).absence_start_time
      = s.absence_start_time.map (· + (r - p)) ∧
    (pause_resume_tracker r (pause_resume_tracker p s)).last_detection_run_time
      = s.last_detection_run_time + (r - p) ∧
    (stop_tracker T (pause_resume_tracker r (pause_resume_tracker p s))).db
      = s.db ++ [⟨t0 + (r - p), T, T - (t0 + (r - p))⟩] := by
  have hpause : pause_resume_tracker p s =
      setStatus "Status: Paused" { s with paused := true, pause_start_time := some p } := by
    simp [pause_resume_tracker, hrun, hp]
  have hresume : pause_resume_tracker r (pause_resume_tracker p s) =
      { s with
        session_start_time := some (t0 + (r - p)),
        absence_start_time := s.absence_start_time.map (· + (r - p)),
        last_detection_run_time := s.last_detection_run_time + (r - p),
        paused := false, pause_start_time := none,
        status := "Status: Paused",
        statusLog := s.statusLog ++ ["Status: Paused"] } := by
    rw [hpause]
    simp [pause_resume_tracker, setStatus, hrun, hact, hstart]
  refine ⟨by simp [hpause, setStatus], by simp [hpause, setStatus],
    by simp [hresume], by simp [hresume], by simp [hresume], by simp [hresume], ?_⟩
  rw [hresume]
  simp only [stop_tracker, save_session, get_total_time_for_today, setStatus]
  norm_num [hrun, hact, hconn, hdur]

/-- C1 amended witness at a concrete input: session started at 1, paused
at 6, resumed at 106, stopped at 111 — persisted duration 10, the 100 s
pause excluded. -/
theorem C1_amended_witness :
    (stop_tracker 111 (pause_resume_tracker 106 (pause_resume_tracker 6
       (run_detection (some true) 1 (start_tracker 0 (init_state 0 [])))))).db
      = [⟨101, 111, 10⟩] := by
  have h := C1_amended
    (run_detection (some true) 1 (start_tracker 0 (init_state 0 []))) 1 6 106 111
    (by norm_num [run_detection, setStatus, start_tracker, init_state,
        get_total_time_for_today, sumForDay, dayOf])
    (by norm_num [run_detection, setStatus, start_tracker, init_state,
        get_total_time_for_today, sumForDay, dayOf])
    (by norm_num [run_detection, setStatus, start_tracker, init_state,
        get_total_time_for_today, sumForDay, dayOf])
    (by norm_num [run_detection, setStatus, start_tracker, init_state,
        get_total_time_for_today, sumForDay, dayOf])
    (by norm_num [run_detection, setStatus, start_tracker, init_state,
        get_total_time_for_today, sumForDay, dayOf])
    (by norm_num)
  have hdb := h.2.2.2.2.2.2
  rw [hdb]
  norm_num [run_detection, setStatus, start_tracker, init_state,
    get_total_time_for_today, sumForDay, dayOf]

end FocusPal

namespace FocusPal

/-! ### Database content helper lemmas -/

theorem stop_tracker_db (now : ℚ) (s : TrackerState) :
    (stop_tracker now s).db =
      if (s.running = true ∨ s.paused = true) ∧ s.session_active = true
          ∧ now - s.session_start_time.getD 0 > 1/10 ∧ s.conn = true
      then s.db ++ [⟨s.session_start_time.getD 0, now, now - s.session_start_time.getD 0⟩]
      else s.db := by
  simp only [stop_tracker, save_session, setStatus, get_total_time_for_today]
  split_ifs <;> simp_all
  all_goals linarith

theorem run_detection_db (sig : Option Bool) (now : ℚ) (s : TrackerState) :
    (run_detection sig now s).db =
      if sig.getD false = false ∧ s.session_active = true
          ∧ now - s.absence_start_time.getD now ≥ absence_threshold
          ∧ s.absence_start_time.getD now - s.session_start_time.getD 0 > 1/10
          ∧ s.conn = true
      then s.db ++ [⟨s.session_start_time.getD 0, s.absence_start_time.getD now,
              s.absence_start_time.getD now - s.session_start_time.getD 0⟩]
      else s.db := by
  rcases sig with _ | b
  · simp only [run_detection, save_session, setStatus, Option.getD_none]
    split_ifs <;> simp_all
    all_goals linarith
  · simp only [run_detection, save_session, setStatus, Option.getD_some]
    rcases b with _ | _
    · split_ifs <;> simp_all
      all_goals linarith
    · split_ifs <;> simp_all

theorem pause_resume_tracker_db (now : ℚ) (s : TrackerState) :
    (pause_resume_tracker now s).db = s.db := by
  unfold pause_resume_tracker setStatus
  split_ifs <;> simp

theorem start_tracker_db (now : ℚ) (s : TrackerState) :
    (start_tracker now s).db = s.db := by
  unfold start_tracker get_total_time_for_today
  split_ifs <;> simp

theorem stop_tracker_db_mem (now : ℚ) (s : TrackerState) (r : SessionRecord)
    (h : r ∈ (stop_tracker now s).db) : r ∈ s.db ∨ goodRecord r := by
  rw [stop_tracker_db] at h
  split_ifs at h with hc
  · rcases List.mem_append.mp h with hm | he
    · exact Or.inl hm
    · simp only [List.mem_singleton] at he
      refine Or.inr ⟨?_, ?_⟩
      · rw [he]; exact hc.2.2.1
      · rw [he]
  · exact Or.inl h

theorem run_detection_db_mem (sig : Option Bool) (now : ℚ) (s : TrackerState)
    (r : SessionRecord) (h : r ∈ (run_detection sig now s).db) :
    r ∈ s.db ∨ goodRecord r := by
  rw [run_detection_db] at h
  split_ifs at h with hc
  · rcases List.mem_append.mp h with hm | he
    · exact Or.inl hm
    · simp only [List.mem_singleton] at he
      refine Or.inr ⟨?_, ?_⟩
      · rw [he]; exact hc.2.2.2.1
      · rw [he]
  · exact Or.inl h

theorem update_frame_db (fok : Bool) (sig : Option Bool) (now : ℚ) (s : TrackerState) :
    (update_frame fok sig now s).db =
      if s.running = true ∧ s.paused = false ∧ fok = false
      then (stop_tracker now s).db
      else if s.running = true ∧ s.paused = false ∧ fok = true
          ∧ now - s.last_detection_run_time ≥ s.detection_interval
      then (run_detection sig now { s with last_detection_run_time := now }).db
      else s.db := by
  simp only [update_frame, setStatus]
  split_ifs <;> simp_all

theorem update_frame_db_mem (fok : Bool) (sig : Option Bool) (now : ℚ)
    (s : TrackerState) (r : SessionRecord)
    (h : r ∈ (update_frame fok sig now s).db) : r ∈ s.db ∨ goodRecord r := by
  rw [update_frame_db] at h
  split_ifs at h with hc1 hc2
  · exact stop_tracker_db_mem now s r h
  · rcases run_detection_db_mem sig now { s with last_detection_run_time := now } r h
      with hm | hg
    · exact Or.inl hm
    · exact Or.inr hg
  · exact Or.inl h

theorem applyOp_db_good (o : Op) (s : TrackerState)
    (h : ∀ r ∈ s.db, goodRecord r) :
    ∀ r ∈ (applyOp o s).db, goodRecord r := by
  cases o with
  | start now =>
      intro r hr
      simp only [applyOp, start_tracker_db] at hr
      exact h r hr
  | pauseResume now =>
      intro r hr
      simp only [applyOp, pause_resume_tracker_db] at hr
      exact h r hr
  | stop now =>
      intro r hr
      simp only [applyOp] at hr
      rcases stop_tracker_db_mem now s r hr with hm | hg
      · exact h r hm
      · exact hg
  | frame fok sig now =>
      intro r hr
      simp only [applyOp] at hr
      rcases update_frame_db_mem fok sig now s r hr with hm | hg
      · exact h r hm
      · exact hg

end FocusPal

namespace FocusPal

/-- C6: sessions with duration ≤ 0.1 s are never persisted, on both close
paths.  (1) Starting from a database whose rows are all well-formed, after
any event sequence every persisted row still has `duration > 0.1` and
`duration = end_time - start_time`.  (2) An absence-triggered close whose
backdated duration `a - t0` is ≤ 0.1 s leaves the table unchanged.
(3) A stop-triggered close whose duration `now - t0` is ≤ 0.1 s leaves the
table unchanged. -/
theorem C6_min_duration_persisted :
    (∀ (now : ℚ) (db0 : List SessionRecord) (ops : List Op),
      (∀ r ∈ db0, goodRecord r) →
      ∀ r ∈ (runOps (init_state now db0) ops).db, goodRecord r) ∧
    (∀ (s : TrackerState) (a t0 now : ℚ), s.session_active = true →
      s.absence_start_time = some a → s.session_start_time = some t0 →
      now - a ≥ absence_threshold → a - t0 ≤ 1/10 →
      (run_detection (some false) now s).db = s.db) ∧
    (∀ (s : TrackerState) (t0 now : ℚ), s.session_active = true →
      s.session_start_time = some t0 → now - t0 ≤ 1/10 →
      (stop_tracker now s).db = s.db) := by
  refine ⟨?_, ?_, ?_⟩
  · intro now db0 ops h0
    refine runOps_preserves (fun t => ∀ r ∈ t.db, goodRecord r)
      applyOp_db_good ops (init_state now db0) ?_
    simpa [init_state] using h0
  · intro s a t0 now hact habs hstart hthr hsmall
    rw [run_detection_db]
    rw [if_neg]
    rintro ⟨-, -, -, hgt, -⟩
    rw [habs, hstart] at hgt
    simp only [Option.getD_some] at hgt
    linarith
  · intro s t0 now hact hstart hsmall
    rw [stop_tracker_db]
    rw [if_neg]
    rintro ⟨-, -, hgt, -⟩
    rw [hstart] at hgt
    simp only [Option.getD_some] at hgt
    linarith

/-- C6 witness at concrete inputs: a start/stop pair 0.05 s apart
persists nothing, and a fresh empty database stays well-formed across a
trace that persists one session. -/
theorem C6_min_duration_persisted_witness :
    ((stop_tracker (21/20) (run_detection (some true) 1
        (start_tracker 0 (init_state 0 [])))).db = []) ∧
    (∀ r ∈ (runOps (init_state 0 []) [Op.start 0, Op.frame true (some true) 1,
        Op.stop 3]).db, goodRecord r) := by
  constructor
  · have h := C6_min_duration_persisted.2.2
      (run_detection (some true) 1 (start_tracker 0 (init_state 0 []))) 1 (21/20)
      (by norm_num [run_detection, setStatus, start_tracker, init_state,
          get_total_time_for_today, sumForDay, dayOf])
      (by norm_num [run_detection, setStatus, start_tracker, init_state,
          get_total_time_for_today, sumForDay, dayOf])
      (by norm_num)
    rw [h]
    norm_num [run_detection, setStatus, start_tracker, init_state,
      get_total_time_for_today, sumForDay, dayOf]
  · exact C6_min_duration_persisted.1 0 [] [Op.start 0, Op.frame true (some true) 1,
      Op.stop 3] (by simp)

end FocusPal

namespace FocusPal

/-! ### Invariant step lemmas -/

theorem absenceInvariant_start (now : ℚ) (s : TrackerState)
    (h : absenceInvariant s) : absenceInvariant (start_tracker now s) := by
  unfold absenceInvariant at *
  unfold start_tracker get_total_time_for_today
  split_ifs <;> simp_all

theorem absenceInvariant_pause_resume (now : ℚ) (s : TrackerState)
    (h : absenceInvariant s) : absenceInvariant (pause_resume_tracker now s) := by
  unfold absenceInvariant at *
  simp only [pause_resume_tracker, setStatus]
  split_ifs with h1 h2 h3 <;> intro hor
  · exact h hor
  · have := h (Or.inl (by simpa using h1))
    simpa using this
  all_goals
    have := h (Or.inl (by simpa using h1))
  all_goals
    rcases this with hn | ha
  all_goals try (left; simp [hn])
  all_goals right; simpa using ha

theorem absenceInvariant_stop (now : ℚ) (s : TrackerState)
    (h : absenceInvariant s) : absenceInvariant (stop_tracker now s) := by
  unfold absenceInvariant at *
  simp only [stop_tracker, save_session, setStatus, get_total_time_for_today]
  split_ifs <;> simp_all

theorem absenceInvariant_run_detection (sig : Option Bool) (now : ℚ) (s : TrackerState)
    (h : absenceInvariant s) : absenceInvariant (run_detection sig now s) := by
  unfold absenceInvariant at *
  rcases sig with _ | b
  · simp only [run_detection, save_session, setStatus, Option.getD_none]
    split_ifs <;> simp_all
  · rcases b with _ | _ <;>
      simp only [run_detection, save_session, setStatus, Option.getD_some] <;>
      split_ifs <;> simp_all

theorem absenceInvariant_update_frame (fok : Bool) (sig : Option Bool) (now : ℚ)
    (s : TrackerState) (h : absenceInvariant s) :
    absenceInvariant (update_frame fok sig now s) := by
  have hstop := absenceInvariant_stop now s h
  have hrd : absenceInvariant
      (run_detection sig now { s with last_detection_run_time := now }) := by
    refine absenceInvariant_run_detection sig now _ ?_
    unfold absenceInvariant at *
    simpa using h
  unfold absenceInvariant at *
  simp only [update_frame, setStatus]
  split_ifs <;>
    first
      | exact h
      | (simpa using hstop)
      | (simpa using hrd)

theorem absenceInvariant_applyOp (o : Op) (s : TrackerState)
    (h : absenceInvariant s) : absenceInvariant (applyOp o s) := by
  cases o with
  | start now => exact absenceInvariant_start now s h
  | pauseResume now => exact absenceInvariant_pause_resume now s h
  | stop now => exact absenceInvariant_stop now s h
  | frame fok sig now => exact absenceInvariant_update_frame fok sig now s h

end FocusPal

namespace FocusPal

/-- C4 counterexample: `stop_tracker` does not clear `absence_start_time`.
Start at 0, present at 1 (session opens), absent at 2 (absence pending),
stop at 3: the resulting state has `session_active = false` while
`absence_start_time = some 2` is still set, so the claimed invariant
"absence_start is never set while session_active is false" fails after
stop. -/
theorem C4_counterexample :
    (runOps (init_state 0 []) [Op.start 0, Op.frame true (some true) 1,
       Op.frame true (some false) 2, Op.stop 3]).session_active = false ∧
    (runOps (init_state 0 []) [Op.start 0, Op.frame true (some true) 1,
       Op.frame true (some false) 2, Op.stop 3]).absence_start_time = some 2 := by
  norm_num [runOps, applyOp, init_state, start_tracker, update_frame,
    run_detection, setStatus, save_session, get_total_time_for_today,
    sumForDay, dayOf, absence_threshold, stop_tracker, pause_resume_tracker]

/-- C4 amended: in every state reachable from launch, whenever the
tracker is Running or Paused, a set `absence_start_time` implies an
active session; `stop_tracker`, however, leaves `absence_start_time`
untouched, so a stopped tracker can retain a stale value (cleared again
by the next `start_tracker`). -/
theorem C4_amended :
    (∀ (now : ℚ) (db0 : List SessionRecord) (ops : List Op),
      absenceInvariant (runOps (init_state now db0) ops)) ∧
    (∀ (now : ℚ) (s : TrackerState),
      (stop_tracker now s).absence_start_time = s.absence_start_time) := by
  constructor
  · intro now db0 ops
    refine runOps_preserves absenceInvariant absenceInvariant_applyOp ops _ ?_
    intro _
    exact Or.inl rfl
  · intro now s
    simp only [stop_tracker, save_session, setStatus, get_total_time_for_today]
    split_ifs <;> simp_all

/-- C4 amended witness at a concrete input: after start at 0, present at
1, absent at 2 the tracker is running with a pending absence, so the
reachable-state invariant forces the session to be active. -/
theorem C4_amended_witness :
    (runOps (init_state 0 []) [Op.start 0, Op.frame true (some true) 1,
       Op.frame true (some false) 2]).session_active = true ∧
    (stop_tracker 3 (runOps (init_state 0 []) [Op.start 0,
       Op.frame true (some true) 1,
       Op.frame true (some false) 2])).absence_start_time = some 2 := by
  have hinv := C4_amended.1 0 [] [Op.start 0, Op.frame true (some true) 1,
    Op.frame true (some false) 2]
  have habs := C4_amended.2 3 (runOps (init_state 0 []) [Op.start 0,
    Op.frame true (some true) 1, Op.frame true (some false) 2])
  have hrun : (runOps (init_state 0 []) [Op.start 0, Op.frame true (some true) 1,
      Op.frame true (some false) 2]).running = true := by
    norm_num [runOps, applyOp, init_state, start_tracker, update_frame,
      run_detection, setStatus, save_session, get_total_time_for_today,
      sumForDay, dayOf, absence_threshold]
  have hpending : (runOps (init_state 0 []) [Op.start 0, Op.frame true (some true) 1,
      Op.frame true (some false) 2]).absence_start_time = some 2 := by
    norm_num [runOps, applyOp, init_state, start_tracker, update_frame,
      run_detection, setStatus, save_session, get_total_time_for_today,
      sumForDay, dayOf, absence_threshold]
  rcases hinv (Or.inl hrun) with hn | ha
  · rw [hpending] at hn
    exact absurd hn (by simp)
  · exact ⟨ha, by rw [habs, hpending]⟩

/-! ### C9: adaptive polling interval policy -/

theorem fastWhenActive_start (now : ℚ) (s : TrackerState)
    (h : fastWhenActive s) : fastWhenActive (start_tracker now s) := by
  unfold fastWhenActive at *
  unfold start_tracker get_total_time_for_today
  split_ifs <;> simp_all

theorem fastWhenActive_pause_resume (now : ℚ) (s : TrackerState)
    (h : fastWhenActive s) : fastWhenActive (pause_resume_tracker now s) := by
  unfold fastWhenActive at *
  simp only [pause_resume_tracker, setStatus]
  split_ifs <;> simp_all

theorem fastWhenActive_stop (now : ℚ) (s : TrackerState)
    (h : fastWhenActive s) : fastWhenActive (stop_tracker now s) := by
  unfold fastWhenActive at *
  simp only [stop_tracker, save_session, setStatus, get_total_time_for_today]
  split_ifs <;> simp_all

theorem fastWhenActive_run_detection (sig : Option Bool) (now : ℚ) (s : TrackerState)
    (h : fastWhenActive s) : fastWhenActive (run_detection sig now s) := by
  unfold fastWhenActive at *
  rcases sig with _ | b
  · simp only [run_detection, setStatus, save_session, Option.getD_none]
    split_ifs <;> simp_all
  · rcases b with _ | _ <;>
      simp only [run_detection, setStatus, save_session, Option.getD_some] <;>
      split_ifs <;> simp_all

theorem fastWhenActive_update_frame (fok : Bool) (sig : Option Bool) (now : ℚ)
    (s : TrackerState) (h : fastWhenActive s) :
    fastWhenActive (update_frame fok sig now s) := by
  have hstop := fastWhenActive_stop now s h
  have hrd : fastWhenActive
      (run_detection sig now { s with last_detection_run_time := now }) := by
    refine fastWhenActive_run_detection sig now _ ?_
    unfold fastWhenActive at *
    simpa using h
  unfold fastWhenActive at *
  simp only [update_frame, setStatus]
  split_ifs <;>
    first
      | exact h
      | (simpa using hstop)
      | (simpa using hrd)

theorem fastWhenActive_applyOp (o : Op) (s : TrackerState)
    (h : fastWhenActive s) : fastWhenActive (applyOp o s) := by
  cases o with
  | start now => exact fastWhenActive_start now s h
  | pauseResume now => exact fastWhenActive_pause_resume now s h
  | stop now => exact fastWhenActive_stop now s h
  | frame fok sig now => exact fastWhenActive_update_frame fok sig now s h

/-- C9: after every detection run the polling interval is the fast value
`1.0` when the subject was detected on that run, and whenever a session is
active after the run (in every reachable state an active session polls at
`1.0`, including while an absence is pending below threshold); the
interval is the slow value `10.0` when the run found nobody and no
session remains active — in particular an absence-triggered close sets it
to `10.0`. -/
theorem C9_interval_policy :
    (∀ (now : ℚ) (db0 : List SessionRecord) (ops : List Op),
      fastWhenActive (runOps (init_state now db0) ops)) ∧
    (∀ (sig : Option Bool) (now : ℚ) (s : TrackerState), fastWhenActive s →
      (sig = some true → (run_detection sig now s).detection_interval = 1) ∧
      ((run_detection sig now s).session_active = true →
        (run_detection sig now s).detection_interval = 1) ∧
      (sig.getD false = false → (run_detection sig now s).session_active = false →
        (run_detection sig now s).detection_interval = 10)) := by
  constructor
  · intro now db0 ops
    refine runOps_preserves fastWhenActive fastWhenActive_applyOp ops _ ?_
    intro h
    simp [init_state] at h
  · intro sig now s h
    unfold fastWhenActive at h
    refine ⟨fun hsig => ?_, fun hact => ?_, fun hsig hact => ?_⟩
    · subst hsig
      simp only [run_detection, setStatus, Option.getD_some]
      split_ifs <;> simp_all
    · revert hact
      rcases sig with _ | b
      · simp only [run_detection, setStatus, save_session, Option.getD_none]
        split_ifs <;> simp_all
      · rcases b with _ | _ <;>
          simp only [run_detection, setStatus, save_session, Option.getD_some] <;>
          split_ifs <;> simp_all
    · revert hact
      rcases sig with _ | b
      · simp only [run_detection, setStatus, save_session, Option.getD_none]
        split_ifs <;> simp_all
      · rcases b with _ | _ <;>
          simp only [run_detection, setStatus, save_session, Option.getD_some] <;>
          split_ifs <;> simp_all

/-- C9 witness at concrete inputs: a present run at 1 yields interval 1;
after present at 1 and a below-threshold absent run at 2 the session is
still active and the reachable-state invariant yields interval 1; an
absent run on an idle tracker yields interval 10. -/
theorem C9_interval_policy_witness :
    (run_detection (some true) 1 (start_tracker 0 (init_state 0 []))).detection_interval
      = 1 ∧
    (runOps (init_state 0 []) [Op.start 0, Op.frame true (some true) 1,
       Op.frame true (some false) 2]).detection_interval = 1 ∧
    (run_detection (some false) 1 (start_tracker 0 (init_state 0 []))).detection_interval
      = 10 := by
  have h1 := (C9_interval_policy.2 (some true) 1 (start_tracker 0 (init_state 0 []))
    (by norm_num [start_tracker, init_state, get_total_time_for_today, sumForDay,
      dayOf, fastWhenActive])).1 rfl
  have h2 := C9_interval_policy.1 0 [] [Op.start 0, Op.frame true (some true) 1,
    Op.frame true (some false) 2]
  have hact : (runOps (init_state 0 []) [Op.start 0, Op.frame true (some true) 1,
      Op.frame true (some false) 2]).session_active = true := by
    norm_num [runOps, applyOp, init_state, start_tracker, update_frame,
      run_detection, setStatus, save_session, get_total_time_for_today,
      sumForDay, dayOf, absence_threshold]
  have h3 := (C9_interval_policy.2 (some false) 1 (start_tracker 0 (init_state 0 []))
    (by norm_num [start_tracker, init_state, get_total_time_for_today, sumForDay,
      dayOf, fastWhenActive])).2.2 rfl
    (by norm_num [run_detection, setStatus, start_tracker, init_state,
      get_total_time_for_today, sumForDay, dayOf])
  exact ⟨h1, h2 hact, h3⟩

end FocusPal

namespace FocusPal

/-- C7: the displayed total equals `total_time_today` plus the elapsed
time of the in-progress session when one is active and `total_time_today`
alone otherwise; and when an absence-triggered close persists a session,
`total_time_today` is refreshed from the table inside `save_session`, so
immediately afterwards no session is active and the displayed total
equals the persisted sum alone — with the just-closed session counted
exactly once: on a same-day close the persisted sum grows by exactly the
closed session's duration `a - t0`. -/
theorem C7_aggregator :
    (∀ (s : TrackerState) (now : ℚ), s.session_active = true →
      display_total now s = s.total_time_today + (now - s.session_start_time.getD 0)) ∧
    (∀ (s : TrackerState) (now : ℚ), s.session_active = false →
      display_total now s = s.total_time_today) ∧
    (∀ (s : TrackerState) (a t0 now : ℚ), s.session_active = true →
      s.absence_start_time = some a → s.session_start_time = some t0 →
      s.conn = true → now - a ≥ absence_threshold → a - t0 > 1/10 →
      (run_detection (some false) now s).session_active = false ∧
      (run_detection (some false) now s).db = s.db ++ [⟨t0, a, a - t0⟩] ∧
      (run_detection (some false) now s).total_time_today
        = sumForDay (dayOf now) ((run_detection (some false) now s).db) ∧
      display_total now (run_detection (some false) now s)
        = sumForDay (dayOf now) ((run_detection (some false) now s).db) ∧
      (dayOf t0 = dayOf now →
        sumForDay (dayOf now) ((run_detection (some false) now s).db)
          = sumForDay (dayOf now) s.db + (a - t0))) := by
  refine ⟨fun s now hact => by simp [display_total, hact],
    fun s now hact => by simp [display_total, hact],
    fun s a t0 now hact habs hstart hconn hthr hbig => ?_⟩
  have hnotlt : ¬ (now - a < absence_threshold) := not_lt.mpr hthr
  have hact2 : (run_detection (some false) now s).session_active = false := by
    simp only [run_detection, setStatus, save_session, Option.getD_some, hact, habs, hstart]
    split_ifs <;> simp_all
  have hdb : (run_detection (some false) now s).db = s.db ++ [⟨t0, a, a - t0⟩] := by
    rw [run_detection_db]
    rw [habs, hstart]
    simp only [Option.getD_some]
    rw [if_pos ⟨trivial, hact, hthr, hbig, hconn⟩]
  have htot : (run_detection (some false) now s).total_time_today
      = sumForDay (dayOf now) (s.db ++ [⟨t0, a, a - t0⟩]) := by
    simp only [run_detection, setStatus, save_session, Option.getD_some, hact, habs, hstart]
    split_ifs <;> simp_all
  refine ⟨hact2, hdb, by rw [htot, hdb], ?_, fun hday => ?_⟩
  · rw [display_total, hact2]
    simp only [if_neg (by simp : ¬ (false = true))]
    rw [htot, hdb]
    ring
  · rw [hdb, sumForDay_append]
    simp [hday]

/-- C7 witness at a concrete input: session from 0, absence from 1,
closed at 4 on an empty same-day table — the displayed total right after
the close is the persisted sum `1`, counting the closed session once. -/
theorem C7_aggregator_witness :
    display_total 4 (run_detection (some false) 4 (run_detection (some false) 1
      (run_detection (some true) 0 (start_tracker (-1) (init_state (-1) [])))))
      = sumForDay (dayOf 4) ((run_detection (some false) 4 (run_detection (some false) 1
          (run_detection (some true) 0 (start_tracker (-1) (init_state (-1) []))))).db) ∧
    display_total 2 (run_detection (some true) 0 (start_tracker (-1) (init_state (-1) [])))
      = (run_detection (some true) 0 (start_tracker (-1) (init_state (-1) []))).total_time_today
          + (2 - 0) := by
  constructor
  · exact ((C7_aggregator.2.2 (run_detection (some false) 1 (run_detection (some true) 0
      (start_tracker (-1) (init_state (-1) [])))) 1 0 4
      (by norm_num [run_detection, setStatus, start_tracker, init_state,
          get_total_time_for_today, sumForDay, dayOf, absence_threshold])
      (by norm_num [run_detection, setStatus, start_tracker, init_state,
          get_total_time_for_today, sumForDay, dayOf, absence_threshold])
      (by norm_num [run_detection, setStatus, start_tracker, init_state,
          get_total_time_for_today, sumForDay, dayOf, absence_threshold])
      (by norm_num [run_detection, setStatus, start_tracker, init_state,
          get_total_time_for_today, sumForDay, dayOf, absence_threshold])
      (by norm_num [absence_threshold]) (by norm_num)).2.2.2.1)
  · have h := C7_aggregator.1 (run_detection (some true) 0
      (start_tracker (-1) (init_state (-1) []))) 2
      (by norm_num [run_detection, setStatus, start_tracker, init_state,
          get_total_time_for_today, sumForDay, dayOf])
    rw [h]
    norm_num [run_detection, setStatus, start_tracker, init_state,
      get_total_time_for_today, sumForDay, dayOf]

end FocusPal

namespace FocusPal

theorem update_frame_gate_eq (sig : Option Bool) (now : ℚ) (s : TrackerState)
    (hrun : s.running = true) (hp : s.paused = false)
    (hgate : now - s.last_detection_run_time ≥ s.detection_interval) :
    update_frame true sig now s =
      (if (run_detection sig now { s with last_detection_run_time := now }).session_active
          = true
       then { run_detection sig now { s with last_detection_run_time := now } with
              current_session_duration := now - (run_detection sig now
                { s with last_detection_run_time := now }).session_start_time.getD 0 }
       else run_detection sig now { s with last_detection_run_time := now }) := by
  unfold update_frame
  rw [if_neg (by simp [hrun]), if_neg (by simp [hp]), if_neg (by simp), if_pos hgate]

theorem eraseLog_display (now : ℚ) (A B : TrackerState)
    (h : ({ A with statusLog := [] } : TrackerState) = { B with statusLog := [] }) :
    ({ (if A.session_active = true then
          { A with current_session_duration := now - A.session_start_time.getD 0 }
        else A) with statusLog := [] } : TrackerState)
      = { (if B.session_active = true then
            { B with current_session_duration := now - B.session_start_time.getD 0 }
          else B) with statusLog := [] } := by
  simp only [TrackerState.mk.injEq] at h
  split_ifs <;> simp_all [TrackerState.mk.injEq]

theorem run_detection_error_log (now : ℚ) (t : TrackerState) :
    "Status: Detection Error" ∈ (run_detection none now t).statusLog := by
  simp only [run_detection, setStatus, save_session, Option.getD_none]
  split_ifs <;> simp

/-- C8: a detector error during a detection run (the YOLO call raising)
is not fatal — `running` and `paused` are untouched — the run posts the
distinct "Status: Detection Error" label update, and apart from the
status-label history the resulting state is identical to the one produced
by a `signal = false` run at the same instant: the same transition rules
apply, so an error can start or extend an absence and close a session.
The next scheduled detection run proceeds normally: once the interval has
elapsed again, a later tick with a frame performs its detection run. -/
theorem C8_detector_error (s : TrackerState) (now : ℚ)
    (hrun : s.running = true) (hp : s.paused = false)
    (hgate : now - s.last_detection_run_time ≥ s.detection_interval) :
    ({ update_frame true none now s with statusLog := [] }
      = { update_frame true (some false) now s with statusLog := [] }) ∧
    "Status: Detection Error" ∈ (update_frame true none now s).statusLog ∧
    (update_frame true none now s).running = true ∧
    (update_frame true none now s).paused = false ∧
    (∀ (sig : Option Bool) (t : ℚ),
      t - (update_frame true none now s).last_detection_run_time
          ≥ (update_frame true none now s).detection_interval →
      (update_frame true sig t (update_frame true none now s)).last_detection_run_time
        = t) := by
  have hcore : ∀ u : TrackerState,
      ({ run_detection none now u with statusLog := [] } : TrackerState)
        = { run_detection (some false) now u with statusLog := [] } := by
    intro u
    simp only [run_detection, setStatus, save_session, Option.getD_none, Option.getD_some]
    split_ifs <;> simp_all
  have herr := update_frame_gate_eq none now s hrun hp hgate
  have habs := update_frame_gate_eq (some false) now s hrun hp hgate
  have hfields := run_detection_frame_fields none now
    { s with last_detection_run_time := now }
  have hrun2 : (update_frame true none now s).running = true := by
    rw [herr]
    split_ifs <;> simp_all
  have hp2 : (update_frame true none now s).paused = false := by
    rw [herr]
    split_ifs <;> simp_all
  refine ⟨?_, ?_, hrun2, hp2, ?_⟩
  · rw [herr, habs]
    exact eraseLog_display now _ _ (hcore _)
  · rw [herr]
    have hmem := run_detection_error_log now { s with last_detection_run_time := now }
    split_ifs <;> simpa using hmem
  · intro sig t ht
    exact update_frame_runs sig t _ hrun2 hp2 ht

/-- C8 witness at a concrete input: an error run on a just-started
tracker at t=1. -/
theorem C8_detector_error_witness :
    ({ update_frame true none 1 (start_tracker 0 (init_state 0 [])) with statusLog := [] }
      = { update_frame true (some false) 1 (start_tracker 0 (init_state 0 []))
          with statusLog := [] }) ∧
    "Status: Detection Error"
      ∈ (update_frame true none 1 (start_tracker 0 (init_state 0 []))).statusLog ∧
    (update_frame true none 1 (start_tracker 0 (init_state 0 []))).running = true := by
  have h := C8_detector_error (start_tracker 0 (init_state 0 [])) 1
    (by norm_num [start_tracker, init_state, get_total_time_for_today, sumForDay, dayOf])
    (by norm_num [start_tracker, init_state, get_total_time_for_today, sumForDay, dayOf])
    (by norm_num [start_tracker, init_state, get_total_time_for_today, sumForDay, dayOf])
  exact ⟨h.1, h.2.1, h.2.2.1⟩

end FocusPal
